import Mathlib

/-!
Shallow embedding of the FloatChat_RAG ingestion pipeline
(`src/floatchat/pipeline/{processor,client,runner}.py`).

Numeric values are modelled as exact rationals together with explicit
non-finite tags (`nan`, `inf`, `neginf`); the sentinel thresholds in the
source (`1e10`, `1e12`) are exactly representable, so rational arithmetic
is faithful for every property stated here.  Python exceptions are
modelled with `Except Unit`: an operation that can raise returns
`.error ()` exactly where the Python operation raises, and a
`try/except` block in the source becomes a `match` on that `Except`.
-/

namespace FloatChat

/-- A floating-point value as seen by `numpy`: an exact finite rational or
one of the non-finite tags. -/
inductive FVal where
  | fin (q : ℚ)
  | nan
  | inf
  | neginf
deriving DecidableEq

/-- `np.isnan` on a float: true exactly on NaN. -/
def FVal.np_isnan : FVal → Bool
  | .nan => true
  | _ => false

/-- `abs(value) > 1e10` from `_get_value`.  `abs(nan) > 1e10` is false in
IEEE comparison; both infinities compare greater than the threshold.  For
a finite rational `q` the test `1e10 < |q|` is written on numerator and
denominator (`1e10 * q.den < |q.num|`, an equivalent natural-number
comparison — see `absGtSentinel_fin_iff`). -/
def FVal.absGtSentinel : FVal → Bool
  | .fin q => decide (10000000000 * q.den < q.num.natAbs)
  | .nan => false
  | .inf => true
  | .neginf => true

/-! Python string primitives, modelled structurally over the character
list of a `String` (the core `String` functions on byte positions do not
reduce definitionally, so the model re-implements the exact Python
semantics over `List Char`). -/

/-- The whitespace stripped by Python `str.strip()`. -/
def isPySpace (c : Char) : Bool :=
  c = ' ' || c = '\t' || c = '\n' || c = '\r' ||
  c = Char.ofNat 11 || c = Char.ofNat 12

/-- Drop the longest prefix of characters satisfying `p`. -/
def dropLeading (p : Char → Bool) : List Char → List Char
  | [] => []
  | c :: cs => if p c then dropLeading p cs else c :: cs

/-- Strip characters satisfying `p` from both ends. -/
def stripList (p : Char → Bool) (s : List Char) : List Char :=
  (dropLeading p (dropLeading p s).reverse).reverse

/-- Python `s.strip()`. -/
def pyStrip (s : String) : String := ⟨stripList isPySpace s.toList⟩

/-- Python `s.strip('/')`. -/
def pyStripSlash (s : String) : String := ⟨stripList (fun c => c = '/') s.toList⟩

/-- Does `sub` occur at the head of `s`? -/
def charsStartsWith : List Char → List Char → Bool
  | _, [] => true
  | [], _ :: _ => false
  | c :: cs, d :: ds => c == d && charsStartsWith cs ds

/-- Occurrence of `sub` anywhere in `s` (Python `sub in s`). -/
def charsContainsSub : List Char → List Char → Bool
  | [], sub => sub.isEmpty
  | c :: cs, sub => charsStartsWith (c :: cs) sub || charsContainsSub cs sub

/-- Python `sub in s`. -/
def strContains (s sub : String) : Bool := charsContainsSub s.toList sub.toList

/-- Python `s.endswith(t)`. -/
def pyEndsWith (s t : String) : Bool :=
  charsStartsWith s.toList.reverse t.toList.reverse

/-- The characters after the first occurrence of `sep`, if any. -/
def charsDropThroughFirst (sep : List Char) : List Char → Option (List Char)
  | [] => none
  | c :: cs =>
    if charsStartsWith (c :: cs) sep then some ((c :: cs).drop sep.length)
    else charsDropThroughFirst sep cs

/-- The characters before the first occurrence of `sep`. -/
def charsTakeUntil (sep : List Char) : List Char → List Char
  | [] => []
  | c :: cs =>
    if charsStartsWith (c :: cs) sep then [] else c :: charsTakeUntil sep cs

/-- Python `s.split(sep)[1]` for a non-empty `sep` that occurs in `s`:
the segment after the first occurrence of `sep` and before the next. -/
def pySplitGet1 (s sep : String) : String :=
  match charsDropThroughFirst sep.toList s.toList with
  | none => ""
  | some rest => ⟨charsTakeUntil sep.toList rest⟩

/-- Python `s.isdigit()` (ASCII digits). -/
def pyIsdigit (s : String) : Bool :=
  !s.toList.isEmpty && s.toList.all (fun c => c.isDigit)

/-- A Python value as returned by `_get_value`: a float, an int (numpy
integers bypass the float sentinel check) or a string. -/
inductive PyVal where
  | flt (v : FVal)
  | int (n : ℤ)
  | str (s : String)
deriving DecidableEq

/-- The raw result of `ds[var].values[index]`:
* `flt` / `int` — numeric scalars;
* `bytes decoded` — a byte-string scalar; `decoded = none` when
  `.decode('utf-8')` raises;
* `strArr s` — a character sub-array (string kind), stringified to `s`;
* `pyStr s` — a `numpy` unicode scalar (a `str` instance, returned as is);
* `err` — the index access itself raises (out of bounds, bad index). -/
inductive RawVal where
  | flt (v : FVal)
  | int (n : ℤ)
  | bytes (decoded : Option String)
  | strArr (s : String)
  | pyStr (s : String)
  | err
deriving DecidableEq

/-- An index into a variable: `i` or `(prof_idx, level_idx)`. -/
inductive Idx where
  | one (i : Nat)
  | two (p l : Nat)
deriving DecidableEq

/-- A dataset variable: what `values[index]` yields at each index. -/
structure Var where
  read : Idx → RawVal

/-- An `xarray.Dataset`: dimension sizes and named variables (`vars`
models `ds.variables`; that field name is reserved in Lean). -/
structure Dataset where
  sizes : List (String × Nat)
  vars : List (String × Var)

/-- `ds.sizes.get(name, dflt)`. -/
def Dataset.sizesGet (ds : Dataset) (name : String) (dflt : Nat) : Nat :=
  match ds.sizes.lookup name with
  | some n => n
  | none => dflt

/-- Bare `np.isnan(v)` on a Python value: raises `TypeError` on a string. -/
def np_isnan (v : PyVal) : Except Unit Bool :=
  match v with
  | .flt f => .ok f.np_isnan
  | .int _ => .ok false
  | .str _ => .error ()

/-- The body of the `try` block of `ArgoStreamProcessor._get_value`
(processor.py lines 90-104): read by index, decode/trim byte strings,
stringify/trim character sub-arrays, null float sentinels, pass anything
else through. `.error ()` marks the points where the Python body raises
(caught by the enclosing `except`). -/
def get_value_body (vr : Var) (index : Idx) : Except Unit (Option PyVal) :=
  match vr.read index with
  | .err => .error ()
  | .bytes none => .error ()
  | .bytes (some s) => .ok (some (.str (pyStrip s)))
  | .strArr s => .ok (some (.str (pyStrip s)))
  | .pyStr s => .ok (some (.str s))
  | .int n => .ok (some (.int n))
  | .flt f => if f.np_isnan || f.absGtSentinel then .ok none else .ok (some (.flt f))

/-- `ArgoStreamProcessor._get_value` (processor.py lines 86-106): `None`
for an absent variable, otherwise the `try` body with every raise caught
and turned into `None`. -/
def get_value (ds : Dataset) (varName : String) (index : Idx) : Option PyVal :=
  match ds.vars.lookup varName with
  | none => none
  | some vr =>
    match get_value_body vr index with
    | .error _ => none
    | .ok r => r

/-- `pd.Timestamp` modelled as a rational day offset from the reference
date 1950-01-01 used by `extract_profiles`. -/
structure Timestamp where
  daysSince1950 : ℚ
deriving DecidableEq

/-- One row of the profiles table (processor.py lines 32-41, 51). -/
structure Profile where
  float_id : String
  data_center : String
  profile_id : Nat
  cycle_number : Option PyVal
  platform_number : Option PyVal
  latitude : Option PyVal
  longitude : Option PyVal
  juld : Option PyVal
  datetime : Option Timestamp
deriving DecidableEq

/-- `pd.Timedelta(days=v)` is backed by a signed 64-bit nanosecond count;
construction raises `OverflowError` outside that range.  The bound
`|v| * 86400e9 < 2^63` (nanoseconds per day times days) is written on
numerator and denominator — see `timedeltaDaysOk_iff`. -/
def timedeltaDaysOk (v : ℚ) : Bool :=
  decide (v.num.natAbs * 86400000000000 < 9223372036854775808 * v.den)

/-- The addition `pd.Timestamp('1950-01-01') + pd.Timedelta(days=v)` must
itself land inside the `datetime64[ns]` range, `pd.Timestamp.min` to
`pd.Timestamp.max` — ±(2^63 − 1) nanoseconds around 1970-01-01 — or it
raises `OutOfBoundsDatetime`.  1950-01-01 lies 631152000000000000 ns
before 1970-01-01, so the result value in nanoseconds is
`v * 86400e9 - 631152000000000000`; the range check is written on
numerator and denominator — see `timestampAddOk_iff`.  (On the negative
side this bound is tighter than the `Timedelta` one: `Timestamp.min` is
only ≈ 99447 days before 1950-01-01.) -/
def timestampAddOk (v : ℚ) : Bool :=
  decide (-9223372036854775807 * (v.den : ℤ) ≤
      v.num * 86400000000000 - 631152000000000000 * (v.den : ℤ)) &&
  decide (v.num * 86400000000000 - 631152000000000000 * (v.den : ℤ) ≤
      9223372036854775807 * (v.den : ℤ))

/-- Python `float(v)` as used inside the `try` of the time conversion.
The string branch is unreachable there (the NaN guard raises on strings
first), so a string is modelled as a failed conversion. -/
def pyFloat (v : PyVal) : Option ℚ :=
  match v with
  | .flt (.fin q) => some q
  | .flt _ => none
  | .int n => some (n : ℚ)
  | .str _ => none

/-- The `try` block of the Julian-date conversion (processor.py lines
45-49): `reference_date + pd.Timedelta(days=float(juld))`, with any raise
caught and turned into a null timestamp.  The conversion fails when the
`Timedelta` construction overflows, or when the `Timestamp` addition
falls outside the `datetime64[ns]` range. -/
def juld_to_datetime (v : PyVal) : Option Timestamp :=
  match pyFloat v with
  | none => none
  | some q => if timedeltaDaysOk q && timestampAddOk q then some ⟨q⟩ else none

/-- The profile dict as first built (processor.py lines 32-41), before
the datetime conversion runs: every field read defensively, datetime
still unset (null). -/
def baseProfile (ds : Dataset) (fid dc : String) (i : Nat) : Profile :=
  { float_id := fid
    data_center := dc
    profile_id := i
    cycle_number := get_value ds "CYCLE_NUMBER" (.one i)
    platform_number := get_value ds "PLATFORM_NUMBER" (.one i)
    latitude := get_value ds "LATITUDE" (.one i)
    longitude := get_value ds "LONGITUDE" (.one i)
    juld := get_value ds "JULD" (.one i)
    datetime := none }

/-- One iteration of the `extract_profiles` loop (processor.py lines
32-53): the field reads, then the NaN guard (which raises on a
non-numeric `juld`, hence `Except`), then the `try`-guarded conversion. -/
def buildProfile (ds : Dataset) (fid dc : String) (i : Nat) : Except Unit Profile :=
  match (baseProfile ds fid dc i).juld with
  | none => .ok (baseProfile ds fid dc i)
  | some v =>
    match np_isnan v with
    | .error e => .error e
    | .ok true => .ok (baseProfile ds fid dc i)
    | .ok false => .ok { baseProfile ds fid dc i with datetime := juld_to_datetime v }

/-- The `for i in range(n_prof)` loop of `extract_profiles`; a raise in
any iteration propagates. -/
def profLoop (ds : Dataset) (fid dc : String) : List Nat → Except Unit (List Profile)
  | [] => .ok []
  | i :: rest =>
    match buildProfile ds fid dc i with
    | .error e => .error e
    | .ok p =>
      match profLoop ds fid dc rest with
      | .error e => .error e
      | .ok tail => .ok (p :: tail)

/-- `ArgoStreamProcessor.extract_profiles` (processor.py lines 26-55):
one Profile per index in `range(ds.sizes.get('N_PROF', 1))`. -/
def extract_profiles (ds : Dataset) (float_id data_center : String) :
    Except Unit (List Profile) :=
  profLoop ds float_id data_center (List.range (ds.sizesGet "N_PROF" 1))

/-- One row of the measurements table (processor.py lines 65-72). -/
structure Measurement where
  float_id : String
  profile_id : Nat
  level : Nat
  pressure : Option PyVal
  temperature : Option PyVal
  salinity : Option PyVal
deriving DecidableEq

/-- The row built for one `(prof_idx, level_idx)` pair. -/
def buildMeas (ds : Dataset) (fid : String) (p l : Nat) : Measurement :=
  { float_id := fid
    profile_id := p
    level := l
    pressure := get_value ds "PRES" (.two p l)
    temperature := get_value ds "TEMP" (.two p l)
    salinity := get_value ds "PSAL" (.two p l) }

/-- The keep condition `meas['pressure'] is not None and not
np.isnan(meas['pressure'])` (processor.py line 75); `np.isnan` raises on
a string pressure, so the guard itself can raise. -/
def measGuard (m : Measurement) : Except Unit Bool :=
  match m.pressure with
  | none => .ok false
  | some v =>
    match np_isnan v with
    | .error e => .error e
    | .ok b => .ok (!b)

/-- The nested `for prof_idx / for level_idx` loop of
`extract_measurements`, keeping rows that pass the pressure guard. -/
def measLoop (ds : Dataset) (fid : String) :
    List (Nat × Nat) → Except Unit (List Measurement)
  | [] => .ok []
  | (p, l) :: rest =>
    match measGuard (buildMeas ds fid p l) with
    | .error e => .error e
    | .ok keep =>
      match measLoop ds fid rest with
      | .error e => .error e
      | .ok tail => .ok (if keep then buildMeas ds fid p l :: tail else tail)

/-- `df.dropna(subset=['pressure', 'temperature', 'salinity'], how='all')`
(processor.py line 82); on an empty frame the code skips the call, which
is the same as filtering nothing. -/
def dropna_all (rows : List Measurement) : List Measurement :=
  rows.filter fun m =>
    !(m.pressure.isNone && m.temperature.isNone && m.salinity.isNone)

/-- The `(prof_idx, level_idx)` cross product in iteration order. -/
def measIndexPairs (n_prof n_levels : Nat) : List (Nat × Nat) :=
  (List.range n_prof).foldr
    (fun p acc => ((List.range n_levels).map (fun l => (p, l))) ++ acc) []

/-- `ArgoStreamProcessor.extract_measurements` (processor.py lines 57-84). -/
def extract_measurements (ds : Dataset) (float_id : String) :
    Except Unit (List Measurement) :=
  match measLoop ds float_id
      (measIndexPairs (ds.sizesGet "N_PROF" 1) (ds.sizesGet "N_LEVELS" 0)) with
  | .error e => .error e
  | .ok rows => .ok (dropna_all rows)

/-- A mutation of the relational store performed by `stream_to_sql`. -/
inductive WriteAction where
  | appendProfiles (rows : List Profile)
  | appendMeasurements (rows : List Measurement)
deriving DecidableEq

/-- `ArgoStreamProcessor.stream_to_sql` (processor.py lines 108-131),
abstracted to the list of append actions it issues: extract both frames,
return early when profiles are empty, append profiles, and append
measurements only when non-empty. -/
def stream_to_sql (ds : Dataset) (float_id data_center : String) :
    Except Unit (List WriteAction) :=
  match extract_profiles ds float_id data_center with
  | .error e => .error e
  | .ok profiles =>
    match extract_measurements ds float_id with
    | .error e => .error e
    | .ok meas =>
      if profiles.isEmpty then .ok []
      else .ok ([.appendProfiles profiles] ++
        if meas.isEmpty then [] else [.appendMeasurements meas])

/-! ### Catalog client (`client.py`)

A fetched-and-parsed page is modelled as `Page α`: `.ok entries` when the
HTTP GET and the HTML parse succeed, `.err` when any step of the `try`
block raises (network error, bad status, parse failure). -/

/-- Outcome of fetching and parsing one catalog page. -/
inductive Page (α : Type) where
  | ok (entries : List α)
  | err

/-- One `<img>` marker in a directory listing, with the text of the first
link in its parent row (`none` when there is no parent row or no link). -/
structure ImgEntry where
  alt : Option String
  rowLinkText : Option String
deriving DecidableEq

/-- One `<a>` element of a float's catalog page: `link.get('href', '')`
is modelled by `href.getD ""`, `link.text` by `text`. -/
structure Link where
  href : Option String
  text : String
deriving DecidableEq

/-- The client configuration (`ArgoAPIClient.__init__`). -/
structure ClientCfg where
  base_url : String

/-- `self.catalog_base`. -/
def ClientCfg.catalog_base (c : ClientCfg) : String :=
  c.base_url ++ "/catalog/argo/gadr"

/-- `self.opendap_base`. -/
def ClientCfg.opendap_base (c : ClientCfg) : String :=
  c.base_url ++ "/dodsC/argo/gadr"

/-- Insertion step of a stable sort by `≤` on strings. -/
def insertLe (x : String) : List String → List String
  | [] => [x]
  | y :: ys => if x ≤ y then x :: y :: ys else y :: insertLe x ys

/-- Python `sorted` on a list of strings. -/
def pySorted : List String → List String
  | [] => []
  | x :: xs => insertLe x (pySorted xs)

/-- The directory-entry name extracted from one `<img>` marker
(client.py lines 43-49 / 73-79): alt text must be `[DIR]` or `Folder`,
the parent row must have a link, whose text is stripped of whitespace and
slashes. -/
def dirEntryName (e : ImgEntry) : Option String :=
  if e.alt = some "[DIR]" ∨ e.alt = some "Folder" then
    e.rowLinkText.map (fun t => pyStripSlash (pyStrip t))
  else none

/-- The hardcoded fallback of `list_data_centers` (client.py lines 58-60). -/
def fallback_centers : List String :=
  ["aoml", "atlantic", "bodc", "coriolis", "csio", "csiro",
   "incois", "indian", "jma", "kiost", "kma", "kordi",
   "meds", "nmdis", "pacific"]

/-- The accumulation loop of `list_data_centers`: keep non-empty names
not already collected, in page order. -/
def collectCenters : List ImgEntry → List String → List String
  | [], acc => acc
  | e :: rest, acc =>
    match dirEntryName e with
    | some name =>
      if name ≠ "" ∧ name ∉ acc then collectCenters rest (acc ++ [name])
      else collectCenters rest acc
    | none => collectCenters rest acc

/-- `ArgoAPIClient.list_data_centers` (client.py lines 32-60): parse the
catalog page into sorted distinct center names; on any raise return the
hardcoded fallback list. -/
def list_data_centers (page : Page ImgEntry) : List String :=
  match page with
  | .err => fallback_centers
  | .ok entries => pySorted (collectCenters entries [])

/-- `if max_floats and len(floats) >= max_floats` (client.py line 82):
Python truthiness makes `max_floats = 0` (and `None`) never truncate. -/
def maxFloatsReached (maxFloats : Option Nat) (n : Nat) : Bool :=
  match maxFloats with
  | none => false
  | some m => if m = 0 then false else decide (m ≤ n)

/-- The accumulation loop of `list_floats`: keep numeric ids in page
order, breaking once `max_floats` ids are collected. -/
def collectFloats (maxFloats : Option Nat) : List ImgEntry → List String → List String
  | [], acc => acc
  | e :: rest, acc =>
    match dirEntryName e with
    | some fid =>
      if pyIsdigit fid then
        if maxFloatsReached maxFloats (acc ++ [fid]).length then acc ++ [fid]
        else collectFloats maxFloats rest (acc ++ [fid])
      else collectFloats maxFloats rest acc
    | none => collectFloats maxFloats rest acc

/-- `ArgoAPIClient.list_floats` (client.py lines 62-89): parse the center
page into sorted numeric float ids; on any raise return `[]`. -/
def list_floats (page : Page ImgEntry) (maxFloats : Option Nat) : List String :=
  match page with
  | .err => []
  | .ok entries => pySorted (collectFloats maxFloats entries [])

/-- First-loop condition of `get_opendap_url` (client.py lines 103-110):
a THREDDS catalog link carrying an explicit dataset path.  A matching
link without `dataset=` is skipped silently, so the three tests combine
into one find. -/
def datasetLinkCond (l : Link) : Bool :=
  strContains (l.href.getD "") "prof.nc" &&
  strContains (l.href.getD "") "catalog.html" &&
  strContains (l.href.getD "") "dataset="

/-- Second-loop condition of `get_opendap_url` (client.py lines 113-117):
visible link text ending in `prof.nc`. -/
def profTextCond (l : Link) : Bool :=
  pyEndsWith (pyStrip l.text) "prof.nc"

/-- The deterministic fallback URL of `get_opendap_url` (client.py line
123): the unit id is assumed to be the filename stem. -/
def fallback_url (c : ClientCfg) (dc fid : String) : String :=
  c.opendap_base ++ "/" ++ dc ++ "/" ++ fid ++ "/" ++ fid ++ "_prof.nc"

/-- `ArgoAPIClient.get_opendap_url` (client.py lines 91-123): resolve via
the dataset-path query parameter, else via a `prof.nc` link text, else
(also when the page fetch raises) the deterministic fallback. -/
def get_opendap_url (c : ClientCfg) (dc fid : String) (page : Page Link) :
    Option String :=
  match page with
  | .err => some (fallback_url c dc fid)
  | .ok links =>
    match links.find? datasetLinkCond with
    | some l => some (c.base_url ++ "/dodsC/" ++ pySplitGet1 (l.href.getD "") "dataset=")
    | none =>
      match links.find? profTextCond with
      | some l => some (c.opendap_base ++ "/" ++ dc ++ "/" ++ fid ++ "/" ++ pyStrip l.text)
      | none => some (fallback_url c dc fid)

/-! ### Orchestrator (`runner.py`)

The thread pool's completion order is nondeterministic, so the sequence
of successfully fetched units, in queue-arrival order, is a parameter
(`fetched`); `writeOk` tells whether the writer's `stream_to_sql` /
`stream_to_parquet` call for a unit succeeds.  The orchestrator enqueues
the `DONE` sentinel only after every worker has finished, so the writer
drains `fetched.map .data ++ [.done]` in FIFO order. -/

/-- A message on the write queue. -/
inductive Msg where
  | data (fid : String)
  | done
deriving DecidableEq

/-- One observable action of a run of `stream_multiple_floats`. -/
inductive RunAction where
  | abort
  | writeUnit (fid : String)
  | drainDone
  | buildIndexes
  | report (succeeded attempted : Nat)
deriving DecidableEq

/-- `db_writer` (runner.py lines 44-84) draining the queue: each `DATA`
message triggers exactly one write invocation; the success counter is
incremented only when the write succeeds; `DONE` only clears the active
flag.  Returns the write actions in order and the final success count. -/
def db_writer (writeOk : String → Bool) : List Msg → List RunAction × Nat
  | [] => ([], 0)
  | .done :: rest => db_writer writeOk rest
  | .data fid :: rest =>
    let r := db_writer writeOk rest
    (.writeUnit fid :: r.1, (if writeOk fid then 1 else 0) + r.2)

/-- `stream_multiple_floats` (runner.py lines 18-164) as its ordered
action trace: abort when discovery finds no floats; otherwise drain the
queue through the single writer, signal completion, build indexes exactly
when the success counter is positive, and report succeeded/attempted. -/
def stream_multiple_floats (floats : List String) (fetched : List String)
    (writeOk : String → Bool) : List RunAction :=
  if floats.isEmpty then [.abort]
  else
    let r := db_writer writeOk (fetched.map Msg.data ++ [Msg.done])
    r.1 ++ [.drainDone] ++
      (if 0 < r.2 then [.buildIndexes] else []) ++
      [.report r.2 floats.length]

/-! ### Derived predicates and concrete fixtures -/

/-- A Python value that is a finite number: a finite float or an integer
(strings and non-finite floats are not). -/
def PyVal.isFiniteNum : PyVal → Bool
  | .flt (.fin _) => true
  | .int _ => true
  | _ => false

/-- A variable returning the same raw value at every index. -/
def Var.const (r : RawVal) : Var := ⟨fun _ => r⟩

/-- Fixture: a well-formed dataset, `N_PROF = 2`, `N_LEVELS = 3`, all
fields finite numerics, `JULD = 100.0`. -/
def dsValid : Dataset :=
  { sizes := [("N_PROF", 2), ("N_LEVELS", 3)],
    vars := [("PRES", Var.const (.flt (.fin 10))),
             ("TEMP", Var.const (.flt (.fin 20))),
             ("PSAL", Var.const (.flt (.fin 35))),
             ("JULD", Var.const (.flt (.fin 100))),
             ("LATITUDE", Var.const (.flt (.fin 1))),
             ("LONGITUDE", Var.const (.flt (.fin 2)))] }

/-- The exact rational 99999.9 (see `q99999_9_eq`). -/
def q99999_9 : ℚ := Rat.mk' 999999 10 (by norm_num) (by norm_num)

/-- The exact rational 15.3 (see `q15_3_eq`). -/
def q15_3 : ℚ := Rat.mk' 153 10 (by norm_num) (by norm_num)

/-- Fixture: sentinel values — `PRES` holds `1e12`, `PSAL` holds
`99999.9`, `TEMP` holds `15.3`. -/
def dsSentinel : Dataset :=
  { sizes := [],
    vars := [("PRES", Var.const (.flt (.fin 1000000000000))),
             ("PSAL", Var.const (.flt (.fin q99999_9))),
             ("TEMP", Var.const (.flt (.fin q15_3)))] }

/-- Fixture: `N_PROF` present but no `N_LEVELS` dimension. -/
def dsNoLevels : Dataset :=
  { sizes := [("N_PROF", 2)],
    vars := [("PRES", Var.const (.flt (.fin 10)))] }

/-- Fixture: `N_PROF = 2`, `N_LEVELS = 3`, valid pressures everywhere,
but `JULD` is a character array — `_get_value` returns a string and the
NaN guard in `extract_profiles` raises on it. -/
def dsC4cex : Dataset :=
  { sizes := [("N_PROF", 2), ("N_LEVELS", 3)],
    vars := [("PRES", Var.const (.flt (.fin 10))),
             ("JULD", Var.const (.strArr "19000101"))] }

/-- Fixture: no `N_PROF` dimension, `JULD` a unicode scalar. -/
def dsC10cex : Dataset :=
  { sizes := [], vars := [("JULD", Var.const (.pyStr "not-a-number"))] }

/-- Fixture: the empty dataset — no dimensions, no variables. -/
def dsEmptyD : Dataset := { sizes := [], vars := [] }

/-- Fixture: a variable whose access raises and one whose byte decoding
raises. -/
def dsDefensive : Dataset :=
  { sizes := [], vars := [("A", Var.const .err), ("B", Var.const (.bytes none))] }

/-- The all-null profile row produced from a dataset with no dimensions
and no variables. -/
def nullProfileRow (fid dc : String) : Profile :=
  { float_id := fid, data_center := dc, profile_id := 0,
    cycle_number := none, platform_number := none, latitude := none,
    longitude := none, juld := none, datetime := none }

/-- The measurement row extracted from `dsValid` at `(p, l)`. -/
def wMeasRow (p l : Nat) : Measurement :=
  { float_id := "f", profile_id := p, level := l,
    pressure := some (.flt (.fin 10)), temperature := some (.flt (.fin 20)),
    salinity := some (.flt (.fin 35)) }

/-- The six measurement rows extracted from `dsValid`. -/
def wMeasRows : List Measurement :=
  [wMeasRow 0 0, wMeasRow 0 1, wMeasRow 0 2, wMeasRow 1 0, wMeasRow 1 1, wMeasRow 1 2]

/-! ### Helper lemmas -/

/-- The decimal constant 99999.9 agrees with its `Rat.mk'` normal form. -/
theorem q99999_9_eq : q99999_9 = (99999.9 : ℚ) := by
  rw [q99999_9, Rat.mk'_eq_divInt, Rat.divInt_eq_div]
  norm_num

/-- The decimal constant 15.3 agrees with its `Rat.mk'` normal form. -/
theorem q15_3_eq : q15_3 = (15.3 : ℚ) := by
  rw [q15_3, Rat.mk'_eq_divInt, Rat.divInt_eq_div]
  norm_num

/-- The numerator/denominator form of the sentinel test agrees with
`abs(value) > 1e10` on finite floats. -/
theorem absGtSentinel_fin_iff (q : ℚ) :
    FVal.absGtSentinel (.fin q) = true ↔ (10 ^ 10 : ℚ) < |q| := by
  have hden : (0 : ℚ) < (q.den : ℚ) := by exact_mod_cast q.pos
  have habs : |q| = |(q.num : ℚ)| / (q.den : ℚ) := by
    conv_lhs => rw [← Rat.num_div_den q]
    rw [abs_div, abs_of_nonneg (le_of_lt hden)]
  rw [FVal.absGtSentinel, decide_eq_true_iff, habs, lt_div_iff₀ hden,
    show ((10 : ℚ) ^ 10) = ((10000000000 : ℕ) : ℚ) by norm_num,
    ← Int.cast_abs, (@Int.cast_natAbs ℚ _ q.num).symm]
  constructor
  · intro h; exact_mod_cast h
  · intro h; exact_mod_cast h

/-- The numerator/denominator form of the `Timedelta` overflow test
agrees with `|v| * 86400e9 < 2^63`. -/
theorem timedeltaDaysOk_iff (v : ℚ) :
    timedeltaDaysOk v = true ↔ |v| * 86400000000000 < 2 ^ 63 := by
  have hden : (0 : ℚ) < (v.den : ℚ) := by exact_mod_cast v.pos
  have habs : |v| = |(v.num : ℚ)| / (v.den : ℚ) := by
    conv_lhs => rw [← Rat.num_div_den v]
    rw [abs_div, abs_of_nonneg (le_of_lt hden)]
  rw [timedeltaDaysOk, decide_eq_true_iff, habs, div_mul_eq_mul_div,
    div_lt_iff₀ hden,
    show ((2 : ℚ) ^ 63) = ((9223372036854775808 : ℕ) : ℚ) by norm_num,
    ← Int.cast_abs, (@Int.cast_natAbs ℚ _ v.num).symm]
  constructor
  · intro h; exact_mod_cast h
  · intro h; exact_mod_cast h

/-- The numerator/denominator form of the `Timestamp` range check agrees
with `Timestamp.min ≤ 1950-01-01 + v days ≤ Timestamp.max`, expressed in
nanoseconds around 1970-01-01. -/
theorem timestampAddOk_iff (v : ℚ) :
    timestampAddOk v = true ↔
      (-9223372036854775807 ≤ v * 86400000000000 - 631152000000000000 ∧
       v * 86400000000000 - 631152000000000000 ≤ 9223372036854775807) := by
  have hden : (0 : ℚ) < (v.den : ℚ) := by exact_mod_cast v.pos
  have hnum : (v.num : ℚ) = v * (v.den : ℚ) :=
    (div_eq_iff (ne_of_gt hden)).mp (Rat.num_div_den v)
  have key : v * 86400000000000 - 631152000000000000 =
      ((v.num * 86400000000000 - 631152000000000000 * (v.den : ℤ) : ℤ) : ℚ) /
        (v.den : ℚ) := by
    rw [eq_div_iff (ne_of_gt hden)]
    push_cast [hnum]
    ring
  rw [timestampAddOk, Bool.and_eq_true, decide_eq_true_iff, decide_eq_true_iff, key,
    le_div_iff₀ hden, div_le_iff₀ hden]
  constructor
  · rintro ⟨h1, h2⟩
    exact ⟨by exact_mod_cast h1, by exact_mod_cast h2⟩
  · rintro ⟨h1, h2⟩
    exact ⟨by exact_mod_cast h1, by exact_mod_cast h2⟩

theorem get_value_of_lookup_none {ds : Dataset} {v : String} (i : Idx)
    (h : ds.vars.lookup v = none) : get_value ds v i = none := by
  simp [get_value, h]

/-- A float returned by `_get_value` is finite and at most the sentinel
threshold in magnitude: NaN and values with `abs > 1e10` are nulled, and
infinities fall under the magnitude test. -/
theorem get_value_flt_finite {ds : Dataset} {v : String} {i : Idx} {f : FVal}
    (h : get_value ds v i = some (.flt f)) : ∃ q : ℚ, f = .fin q ∧ |q| ≤ 10 ^ 10 := by
  unfold get_value at h
  cases hl : ds.vars.lookup v with
  | none => simp only [hl] at h; exact absurd h (by simp)
  | some vr =>
    simp only [hl] at h
    unfold get_value_body at h
    cases hr : vr.read i
    case err => simp [hr] at h
    case bytes o => cases o <;> simp [hr] at h
    case strArr s => simp [hr] at h
    case pyStr s => simp [hr] at h
    case int n => simp [hr] at h
    case flt f0 =>
      simp only [hr] at h
      by_cases hc : (f0.np_isnan || f0.absGtSentinel) = true
      · rw [if_pos hc] at h; simp at h
      · rw [if_neg hc] at h
        simp at h
        subst h
        rw [Bool.or_eq_true, not_or] at hc
        cases f0 with
        | fin q =>
          exact ⟨q, rfl,
            le_of_not_lt (fun hlt => hc.2 ((absGtSentinel_fin_iff q).mpr hlt))⟩
        | nan => simp [FVal.np_isnan] at hc
        | inf => simp [FVal.absGtSentinel] at hc
        | neginf => simp [FVal.absGtSentinel] at hc

/-- Reading a finite float `q` through `_get_value` applies exactly the
`abs > 1e10` sentinel test. -/
theorem get_value_fin {ds : Dataset} {v : String} {i : Idx} {vr : Var} {q : ℚ}
    (hv : ds.vars.lookup v = some vr) (hr : vr.read i = .flt (.fin q)) :
    get_value ds v i = if 10 ^ 10 < |q| then none else some (.flt (.fin q)) := by
  by_cases h10 : (10 ^ 10 : ℚ) < |q|
  · have hb : FVal.absGtSentinel (.fin q) = true := (absGtSentinel_fin_iff q).mpr h10
    simp [get_value, hv, get_value_body, hr, FVal.np_isnan, hb, h10]
  · have hb : FVal.absGtSentinel (.fin q) = false :=
      Bool.eq_false_iff.mpr (fun hc => h10 ((absGtSentinel_fin_iff q).mp hc))
    simp [get_value, hv, get_value_body, hr, FVal.np_isnan, hb, h10]

/-- Reading a non-finite float through `_get_value` yields null: NaN via
the `isnan` test, the infinities via the magnitude test. -/
theorem get_value_nonfinite {ds : Dataset} {v : String} {i : Idx} {vr : Var} {f : FVal}
    (hv : ds.vars.lookup v = some vr) (hr : vr.read i = .flt f)
    (hf : f = .nan ∨ f = .inf ∨ f = .neginf) : get_value ds v i = none := by
  rcases hf with h | h | h <;> subst h <;>
    simp [get_value, hv, get_value_body, hr, FVal.np_isnan, FVal.absGtSentinel]

/-- C2 (amended): through `_get_value`'s sanitization, a numeric value of
1e12 is coerced to null; a numeric value of 99999.9 is below the
`abs > 1e10` threshold and passes through unchanged (it is not coerced to
null); a numeric value of 15.3 passes through unchanged; and in general
any non-finite value, or any value of magnitude greater than 1e10,
becomes null. -/
theorem get_value_sentinel_rules (ds : Dataset) (v : String) (i : Idx) (vr : Var)
    (hv : ds.vars.lookup v = some vr) :
    (vr.read i = .flt (.fin 1000000000000) → get_value ds v i = none) ∧
    (vr.read i = .flt (.fin q99999_9) →
      get_value ds v i = some (.flt (.fin q99999_9))) ∧
    (vr.read i = .flt (.fin q15_3) →
      get_value ds v i = some (.flt (.fin q15_3))) ∧
    (∀ f : FVal, vr.read i = .flt f →
      (f = .nan ∨ f = .inf ∨ f = .neginf ∨ ∃ q : ℚ, f = .fin q ∧ 10 ^ 10 < |q|) →
      get_value ds v i = none) := by
  refine ⟨fun hr => ?_, fun hr => ?_, fun hr => ?_, fun f hr hf => ?_⟩
  · rw [get_value_fin hv hr, if_pos (by norm_num)]
  · rw [get_value_fin hv hr, if_neg ?_]
    rw [q99999_9_eq, abs_of_nonneg (by norm_num : (0 : ℚ) ≤ 99999.9)]
    norm_num
  · rw [get_value_fin hv hr, if_neg ?_]
    rw [q15_3_eq, abs_of_nonneg (by norm_num : (0 : ℚ) ≤ 15.3)]
    norm_num
  · rcases hf with h | h | h | ⟨q, hq, h10⟩
    · exact get_value_nonfinite hv (h ▸ hr) (Or.inl rfl)
    · exact get_value_nonfinite hv (h ▸ hr) (Or.inr (Or.inl rfl))
    · exact get_value_nonfinite hv (h ▸ hr) (Or.inr (Or.inr rfl))
    · rw [get_value_fin hv (hq ▸ hr), if_pos h10]

/-- C2 counterexample: the claim says a numeric value of 99999.9 is
coerced to null, but `99999.9 ≤ 1e10`, so `_get_value` returns it
unchanged. -/
theorem get_value_99999_passes :
    get_value dsSentinel "PSAL" (.one 0) = some (.flt (.fin q99999_9)) ∧
    ¬get_value dsSentinel "PSAL" (.one 0) = none := by
  constructor <;> decide

/-- C2 witness: on the sentinel fixture, 1e12 is nulled and 15.3 passes
through. -/
theorem get_value_sentinel_rules_witness :
    get_value dsSentinel "PRES" (.one 0) = none ∧
    get_value dsSentinel "TEMP" (.one 0) = some (.flt (.fin q15_3)) :=
  ⟨(get_value_sentinel_rules dsSentinel "PRES" (.one 0) _ rfl).1 rfl,
   (get_value_sentinel_rules dsSentinel "TEMP" (.one 0) _ rfl).2.2.1 rfl⟩

/-- C9: `_get_value` is total — an absent variable, a raising index
access, and a raising byte decode all yield null, and on every input the
result is null or a value (the model returns `Option PyVal`, with
`.error` confined to `get_value_body`, mirroring the enclosing
`try/except` in the source). -/
theorem get_value_defensive (ds : Dataset) (v : String) (i : Idx) :
    (ds.vars.lookup v = none → get_value ds v i = none) ∧
    (∀ vr : Var, ds.vars.lookup v = some vr → vr.read i = .err →
      get_value ds v i = none) ∧
    (∀ vr : Var, ds.vars.lookup v = some vr → vr.read i = .bytes none →
      get_value ds v i = none) ∧
    (get_value ds v i = none ∨ ∃ x : PyVal, get_value ds v i = some x) := by
  refine ⟨fun h => get_value_of_lookup_none i h, fun vr hv hr => ?_, fun vr hv hr => ?_, ?_⟩
  · simp [get_value, hv, get_value_body, hr]
  · simp [get_value, hv, get_value_body, hr]
  · cases h : get_value ds v i
    · exact Or.inl rfl
    · exact Or.inr ⟨_, rfl⟩

/-- C9 witness: on the defensive fixture, a missing variable, a raising
access and a failed decode all give null. -/
theorem get_value_defensive_witness :
    get_value dsDefensive "MISSING" (.one 0) = none ∧
    get_value dsDefensive "A" (.one 0) = none ∧
    get_value dsDefensive "B" (.one 0) = none :=
  ⟨(get_value_defensive dsDefensive "MISSING" (.one 0)).1 rfl,
   (get_value_defensive dsDefensive "A" (.one 0)).2.1 _ rfl rfl,
   (get_value_defensive dsDefensive "B" (.one 0)).2.2.1 _ rfl rfl⟩

/-- C5: `get_opendap_url` always returns some URL; when the page fetch
fails, or no link matches either resolution rule, it returns the
deterministic fallback `{opendap_base}/{center}/{unit}/{unit}_prof.nc`. -/
theorem get_opendap_url_spec (c : ClientCfg) (dc fid : String) (page : Page Link) :
    (∃ url : String, get_opendap_url c dc fid page = some url) ∧
    (page = .err → get_opendap_url c dc fid page = some (fallback_url c dc fid)) ∧
    (∀ links : List Link, page = .ok links →
      (∀ l ∈ links, datasetLinkCond l = false ∧ profTextCond l = false) →
      get_opendap_url c dc fid page = some (fallback_url c dc fid)) ∧
    fallback_url c dc fid =
      c.opendap_base ++ "/" ++ dc ++ "/" ++ fid ++ "/" ++ fid ++ "_prof.nc" := by
  refine ⟨?_, ?_, ?_, rfl⟩
  · cases page with
    | err => exact ⟨_, rfl⟩
    | ok links =>
      cases h1 : links.find? datasetLinkCond with
      | some l =>
        exact ⟨c.base_url ++ "/dodsC/" ++ pySplitGet1 (l.href.getD "") "dataset=",
          by simp [get_opendap_url, h1]⟩
      | none =>
        cases h2 : links.find? profTextCond with
        | some l =>
          exact ⟨c.opendap_base ++ "/" ++ dc ++ "/" ++ fid ++ "/" ++ pyStrip l.text,
            by simp [get_opendap_url, h1, h2]⟩
        | none => exact ⟨fallback_url c dc fid, by simp [get_opendap_url, h1, h2]⟩
  · intro h; subst h; rfl
  · intro links hp hall
    subst hp
    have h1 : links.find? datasetLinkCond = none :=
      List.find?_eq_none.mpr (fun x hx => by simp [(hall x hx).1])
    have h2 : links.find? profTextCond = none :=
      List.find?_eq_none.mpr (fun x hx => by simp [(hall x hx).2])
    simp [get_opendap_url, h1, h2]

/-- C5 witness: a failed fetch and a match-free page both resolve to the
fallback URL. -/
theorem get_opendap_url_spec_witness :
    get_opendap_url ⟨"https://b"⟩ "aoml" "13857" .err =
      some (fallback_url ⟨"https://b"⟩ "aoml" "13857") ∧
    get_opendap_url ⟨"https://b"⟩ "aoml" "13857" (.ok [⟨some "x.html", "hello"⟩]) =
      some (fallback_url ⟨"https://b"⟩ "aoml" "13857") :=
  ⟨(get_opendap_url_spec ⟨"https://b"⟩ "aoml" "13857" .err).2.1 rfl,
   (get_opendap_url_spec ⟨"https://b"⟩ "aoml" "13857" (.ok [⟨some "x.html", "hello"⟩])).2.2.1
     [⟨some "x.html", "hello"⟩] rfl (by decide)⟩

/-- A measurement row that passed the pressure guard carries a non-null,
finite, numeric pressure. -/
theorem measGuard_pressure {ds : Dataset} {fid : String} {p l : Nat}
    (h : measGuard (buildMeas ds fid p l) = .ok true) :
    ∃ v, (buildMeas ds fid p l).pressure = some v ∧ v.isFiniteNum = true := by
  unfold measGuard at h
  cases hp : (buildMeas ds fid p l).pressure with
  | none => rw [hp] at h; simp at h
  | some v =>
    rw [hp] at h
    refine ⟨v, rfl, ?_⟩
    cases v with
    | str s => simp [np_isnan, Except.bind] at h
    | int n => simp [PyVal.isFiniteNum]
    | flt f =>
      obtain ⟨q, hq, -⟩ :=
        get_value_flt_finite (show get_value ds "PRES" (.two p l) = some (.flt f) from hp)
      subst hq
      simp [PyVal.isFiniteNum]

/-- Every row in a successful `measLoop` result passed the pressure
guard. -/
theorem measLoop_pressure {ds : Dataset} {fid : String} :
    ∀ {pairs : List (Nat × Nat)} {rows : List Measurement},
      measLoop ds fid pairs = .ok rows → ∀ m ∈ rows,
      ∃ v, m.pressure = some v ∧ v.isFiniteNum = true := by
  intro pairs
  induction pairs with
  | nil =>
    intro rows h m hm
    simp [measLoop] at h
    subst h
    simp at hm
  | cons pl rest ih =>
    obtain ⟨p, l⟩ := pl
    intro rows h m hm
    simp only [measLoop] at h
    cases hg : measGuard (buildMeas ds fid p l) with
    | error e => rw [hg] at h; simp at h
    | ok keep =>
      rw [hg] at h
      cases hrest : measLoop ds fid rest with
      | error e => rw [hrest] at h; simp at h
      | ok tail =>
        rw [hrest] at h
        simp only [Except.ok.injEq] at h
        cases keep with
        | false =>
          simp at h
          subst h
          exact ih hrest m hm
        | true =>
          simp at h
          subst h
          rcases List.mem_cons.mp hm with hm0 | hmtail
          · subst hm0; exact measGuard_pressure hg
          · exact ih hrest m hmtail

/-- C1: every Measurement row returned by `extract_measurements` has a
pressure that is non-null and finite (sentinel-coerced values having
already been nulled by `_get_value`), and consequently no returned row
has pressure, temperature and salinity all null. -/
theorem extract_measurements_pressure_invariant (ds : Dataset) (fid : String)
    (rows : List Measurement) (h : extract_measurements ds fid = .ok rows) :
    ∀ m ∈ rows,
      (∃ v, m.pressure = some v ∧ v.isFiniteNum = true) ∧
      ¬(m.pressure = none ∧ m.temperature = none ∧ m.salinity = none) := by
  unfold extract_measurements at h
  cases h0 : measLoop ds fid
      (measIndexPairs (ds.sizesGet "N_PROF" 1) (ds.sizesGet "N_LEVELS" 0)) with
  | error e => rw [h0] at h; simp at h
  | ok rows0 =>
    rw [h0] at h
    simp only [Except.ok.injEq] at h
    subst h
    intro m hm
    have hm0 : m ∈ rows0 := List.mem_of_mem_filter hm
    have hp := measLoop_pressure h0 m hm0
    refine ⟨hp, ?_⟩
    obtain ⟨v, hv, -⟩ := hp
    rintro ⟨h1, -, -⟩
    rw [hv] at h1
    exact Option.noConfusion h1

/-- C1 witness: the first of the six rows extracted from the valid
fixture dataset. -/
theorem extract_measurements_pressure_invariant_witness :
    (∃ v, (wMeasRow 0 0).pressure = some v ∧ v.isFiniteNum = true) ∧
    ¬((wMeasRow 0 0).pressure = none ∧ (wMeasRow 0 0).temperature = none ∧
      (wMeasRow 0 0).salinity = none) :=
  extract_measurements_pressure_invariant dsValid "f" wMeasRows (by rfl)
    (wMeasRow 0 0) (by decide)

/-- C6: on a fetch or parse failure, `list_data_centers` returns the
hardcoded fallback center list and `list_floats` returns the empty
sequence; both are total functions of the page outcome, so no exception
reaches the caller. -/
theorem list_fallback_behavior (maxFloats : Option Nat) :
    list_data_centers .err = fallback_centers ∧ list_floats .err maxFloats = [] :=
  ⟨rfl, rfl⟩

/-- C6 witness: the fallback behavior at a concrete `max_floats`. -/
theorem list_fallback_behavior_witness :
    list_data_centers .err = fallback_centers ∧ list_floats .err (some 5) = [] :=
  list_fallback_behavior (some 5)

/-- The base profile row keeps the identifying fields. -/
theorem baseProfile_fields (ds : Dataset) (fid dc : String) (i : Nat) :
    (baseProfile ds fid dc i).profile_id = i ∧
    (baseProfile ds fid dc i).float_id = fid ∧
    (baseProfile ds fid dc i).data_center = dc ∧
    (baseProfile ds fid dc i).juld = get_value ds "JULD" (.one i) ∧
    (baseProfile ds fid dc i).datetime = none :=
  ⟨rfl, rfl, rfl, rfl, rfl⟩

/-- When the juld field is null, the NaN guard is skipped and the base
row (null datetime) is returned. -/
theorem buildProfile_juld_none {ds : Dataset} {fid dc : String} {i : Nat}
    (hj : get_value ds "JULD" (.one i) = none) :
    buildProfile ds fid dc i = .ok (baseProfile ds fid dc i) := by
  unfold buildProfile
  rw [show (baseProfile ds fid dc i).juld = none from hj]

/-- When the juld field is a finite float, the guard passes and the
datetime is the guarded conversion of that value. -/
theorem buildProfile_juld_fin {ds : Dataset} {fid dc : String} {i : Nat} {q : ℚ}
    (hj : get_value ds "JULD" (.one i) = some (.flt (.fin q))) :
    buildProfile ds fid dc i =
      .ok { baseProfile ds fid dc i with
            datetime := juld_to_datetime (.flt (.fin q)) } := by
  unfold buildProfile
  rw [show (baseProfile ds fid dc i).juld = some (.flt (.fin q)) from hj]
  rfl

/-- When the juld value passes the NaN guard, the datetime is the
`try`-guarded conversion of that value — the conversion itself never
raises. -/
theorem buildProfile_guard_false {ds : Dataset} {fid dc : String} {i : Nat} {v : PyVal}
    (hj : get_value ds "JULD" (.one i) = some v) (hn : np_isnan v = .ok false) :
    buildProfile ds fid dc i =
      .ok { baseProfile ds fid dc i with datetime := juld_to_datetime v } := by
  unfold buildProfile
  rw [show (baseProfile ds fid dc i).juld = some v from hj]
  show (match np_isnan v with
    | .error e => Except.error e
    | .ok true => Except.ok (baseProfile ds fid dc i)
    | .ok false =>
        Except.ok { baseProfile ds fid dc i with datetime := juld_to_datetime v }) = _
  rw [hn]

/-- `buildProfile` can only raise out of the NaN guard, i.e. on a string
juld value; on any other juld it succeeds. -/
theorem buildProfile_ok_of_nonstr {ds : Dataset} {fid dc : String} {i : Nat}
    (hstr : ∀ s : String, get_value ds "JULD" (.one i) ≠ some (.str s)) :
    ∃ p, buildProfile ds fid dc i = .ok p := by
  unfold buildProfile
  cases hj : (baseProfile ds fid dc i).juld with
  | none => exact ⟨_, rfl⟩
  | some v =>
    cases v with
    | str s => exact absurd hj (hstr s)
    | int n => exact ⟨_, rfl⟩
    | flt f =>
      simp only [np_isnan]
      cases f.np_isnan
      · exact ⟨_, rfl⟩
      · exact ⟨_, rfl⟩

/-- A successfully built profile row records its own index. -/
theorem buildProfile_profile_id {ds : Dataset} {fid dc : String} {i : Nat} {p : Profile}
    (h : buildProfile ds fid dc i = .ok p) : p.profile_id = i := by
  unfold buildProfile at h
  split at h
  · simp only [Except.ok.injEq] at h; subst h; rfl
  · split at h
    · simp at h
    · simp only [Except.ok.injEq] at h; subst h; rfl
    · simp only [Except.ok.injEq] at h; subst h; rfl

/-- A profile in a successful `profLoop` result is the row built at its
own profile index. -/
theorem profLoop_mem {ds : Dataset} {fid dc : String} :
    ∀ {idxs : List Nat} {rows : List Profile},
      profLoop ds fid dc idxs = .ok rows → ∀ p ∈ rows,
      buildProfile ds fid dc p.profile_id = .ok p := by
  intro idxs
  induction idxs with
  | nil =>
    intro rows h p hp
    simp [profLoop] at h
    subst h
    simp at hp
  | cons j rest ih =>
    intro rows h p hp
    simp only [profLoop] at h
    cases hb : buildProfile ds fid dc j with
    | error e => rw [hb] at h; simp at h
    | ok p0 =>
      rw [hb] at h
      cases hrest : profLoop ds fid dc rest with
      | error e => rw [hrest] at h; simp at h
      | ok tail =>
        rw [hrest] at h
        simp only [Except.ok.injEq] at h
        subst h
        rcases List.mem_cons.mp hp with h0 | htail
        · subst h0
          rw [buildProfile_profile_id hb]
          exact hb
        · exact ih hrest p htail

/-- C3: the time conversion of `extract_profiles` — every returned
Profile is built by `buildProfile` at its index; a raw juld of 100.0
gives a timestamp of exactly 1950-01-01 + 100 days; a null juld, and a
non-finite raw juld (nulled by `_get_value`), give a null timestamp; any
value that passes the NaN guard is converted without an error escaping,
fractional days within bounds convert exactly, and a conversion failure
(`Timedelta` overflow, or the `Timestamp` addition leaving the
`datetime64[ns]` range) yields a null timestamp instead of an error. -/
theorem extract_profiles_time_conversion (ds : Dataset) (fid dc : String) (i : Nat) :
    (∀ rows p, extract_profiles ds fid dc = .ok rows → p ∈ rows →
      buildProfile ds fid dc p.profile_id = .ok p) ∧
    (get_value ds "JULD" (.one i) = some (.flt (.fin 100)) →
      ∃ p, buildProfile ds fid dc i = .ok p ∧ p.datetime = some ⟨100⟩) ∧
    (get_value ds "JULD" (.one i) = none →
      ∃ p, buildProfile ds fid dc i = .ok p ∧ p.datetime = none) ∧
    (∀ vr : Var, ∀ f : FVal, ds.vars.lookup "JULD" = some vr →
      vr.read (.one i) = .flt f → (f = .nan ∨ f = .inf ∨ f = .neginf) →
      ∃ p, buildProfile ds fid dc i = .ok p ∧ p.datetime = none) ∧
    (∀ v : PyVal, get_value ds "JULD" (.one i) = some v → np_isnan v = .ok false →
      ∃ p, buildProfile ds fid dc i = .ok p) ∧
    (∀ q : ℚ, get_value ds "JULD" (.one i) = some (.flt (.fin q)) →
      timedeltaDaysOk q = true → timestampAddOk q = true →
      ∃ p, buildProfile ds fid dc i = .ok p ∧ p.datetime = some ⟨q⟩) ∧
    (∀ q : ℚ, get_value ds "JULD" (.one i) = some (.flt (.fin q)) →
      timedeltaDaysOk q = false ∨ timestampAddOk q = false →
      ∃ p, buildProfile ds fid dc i = .ok p ∧ p.datetime = none) := by
  refine ⟨?_, ?_, ?_, ?_, ?_, ?_, ?_⟩
  · intro rows p h hp
    exact profLoop_mem h p hp
  · intro hj
    refine ⟨_, buildProfile_juld_fin hj, ?_⟩
    simp [juld_to_datetime, pyFloat]
    decide
  · intro hj
    exact ⟨_, buildProfile_juld_none hj, rfl⟩
  · intro vr f hv hr hf
    have hj : get_value ds "JULD" (.one i) = none := get_value_nonfinite hv hr hf
    exact ⟨_, buildProfile_juld_none hj, rfl⟩
  · intro v hj hn
    exact ⟨_, buildProfile_guard_false hj hn⟩
  · intro q hj h1 h2
    refine ⟨_, buildProfile_juld_fin hj, ?_⟩
    simp [juld_to_datetime, pyFloat, h1, h2]
  · intro q hj hfail
    refine ⟨_, buildProfile_juld_fin hj, ?_⟩
    rcases hfail with h | h <;> simp [juld_to_datetime, pyFloat, h]

/-- C3 witness: on the valid fixture (`JULD = 100.0`), the profile at
index 0 carries the timestamp 1950-01-01 + 100 days. -/
theorem extract_profiles_time_conversion_witness :
    ∃ p, buildProfile dsValid "f" "c" 0 = .ok p ∧ p.datetime = some ⟨100⟩ :=
  (extract_profiles_time_conversion dsValid "f" "c" 0).2.1 (by rfl)

/-- A successfully built profile row carries the supplied unit id and
center. -/
theorem buildProfile_ids {ds : Dataset} {fid dc : String} {i : Nat} {p : Profile}
    (h : buildProfile ds fid dc i = .ok p) :
    p.float_id = fid ∧ p.data_center = dc := by
  unfold buildProfile at h
  split at h
  · simp only [Except.ok.injEq] at h; subst h; exact ⟨rfl, rfl⟩
  · split at h
    · simp at h
    · simp only [Except.ok.injEq] at h; subst h; exact ⟨rfl, rfl⟩
    · simp only [Except.ok.injEq] at h; subst h; exact ⟨rfl, rfl⟩

/-- With no level dimension the cross product of indices is empty. -/
theorem measIndexPairs_zero (n : Nat) : measIndexPairs n 0 = [] := by
  unfold measIndexPairs
  induction List.range n with
  | nil => rfl
  | cons a t ih =>
    simp only [List.foldr_cons, List.range_zero, List.map_nil, List.nil_append]
    exact ih

/-- C4 (amended): for a dataset with `N_PROF = 2` and `N_LEVELS = 3`
whose pressure variable holds a present, finite, non-sentinel value at
every (profile, level) pair — and whose time field yields no string value
at either profile index, since a string juld raises in the NaN guard (see
the counterexample) — `extract_profiles` returns exactly 2 Profile rows
and `extract_measurements` exactly 6 Measurement rows; when the
`N_LEVELS` dimension is absent its size defaults to 0, so
`extract_measurements` returns no rows. -/
theorem extract_counts (ds ds2 : Dataset) (fid dc fid2 : String) (presV : Var)
    (h1 : ds.sizes.lookup "N_PROF" = some 2)
    (h2 : ds.sizes.lookup "N_LEVELS" = some 3)
    (hpv : ds.vars.lookup "PRES" = some presV)
    (hpres : ∀ p l : Nat, p < 2 → l < 3 →
      ∃ q : ℚ, presV.read (.two p l) = .flt (.fin q) ∧ |q| ≤ 10 ^ 10)
    (hjuld : ∀ i : Nat, i < 2 → ∀ s : String,
      get_value ds "JULD" (.one i) ≠ some (.str s))
    (h3 : ds2.sizes.lookup "N_LEVELS" = none) :
    (∃ p0 p1 : Profile, extract_profiles ds fid dc = .ok [p0, p1]) ∧
    (∃ rows : List Measurement,
      extract_measurements ds fid = .ok rows ∧ rows.length = 6) ∧
    extract_measurements ds2 fid2 = .ok [] := by
  have hget : ∀ p l : Nat, p < 2 → l < 3 →
      ∃ q : ℚ, get_value ds "PRES" (.two p l) = some (.flt (.fin q)) := by
    intro p l hp hl
    obtain ⟨q, hr, hle⟩ := hpres p l hp hl
    exact ⟨q, by rw [get_value_fin hpv hr, if_neg (not_lt.mpr hle)]⟩
  have hguard : ∀ p l : Nat, p < 2 → l < 3 →
      measGuard (buildMeas ds fid p l) = .ok true := by
    intro p l hp hl
    obtain ⟨q, hq⟩ := hget p l hp hl
    unfold measGuard
    rw [show (buildMeas ds fid p l).pressure = some (.flt (.fin q)) from hq]
    rfl
  refine ⟨?_, ?_, ?_⟩
  · obtain ⟨p0, hp0⟩ :=
      @buildProfile_ok_of_nonstr ds fid dc 0 (fun s => hjuld 0 (by norm_num) s)
    obtain ⟨p1, hp1⟩ :=
      @buildProfile_ok_of_nonstr ds fid dc 1 (fun s => hjuld 1 (by norm_num) s)
    refine ⟨p0, p1, ?_⟩
    unfold extract_profiles
    rw [show ds.sizesGet "N_PROF" 1 = 2 from by simp [Dataset.sizesGet, h1],
      show List.range 2 = [0, 1] from rfl]
    simp [profLoop, hp0, hp1]
  · refine ⟨[buildMeas ds fid 0 0, buildMeas ds fid 0 1, buildMeas ds fid 0 2,
      buildMeas ds fid 1 0, buildMeas ds fid 1 1, buildMeas ds fid 1 2], ?_, rfl⟩
    unfold extract_measurements
    rw [show ds.sizesGet "N_PROF" 1 = 2 from by simp [Dataset.sizesGet, h1],
      show ds.sizesGet "N_LEVELS" 0 = 3 from by simp [Dataset.sizesGet, h2],
      show measIndexPairs 2 3 = [(0,0),(0,1),(0,2),(1,0),(1,1),(1,2)] from rfl]
    have hloop : measLoop ds fid [(0,0),(0,1),(0,2),(1,0),(1,1),(1,2)] =
        .ok [buildMeas ds fid 0 0, buildMeas ds fid 0 1, buildMeas ds fid 0 2,
             buildMeas ds fid 1 0, buildMeas ds fid 1 1, buildMeas ds fid 1 2] := by
      simp [measLoop,
        hguard 0 0 (by norm_num) (by norm_num), hguard 0 1 (by norm_num) (by norm_num),
        hguard 0 2 (by norm_num) (by norm_num), hguard 1 0 (by norm_num) (by norm_num),
        hguard 1 1 (by norm_num) (by norm_num), hguard 1 2 (by norm_num) (by norm_num)]
    rw [hloop]
    have hdrop : ∀ p l : Nat, p < 2 → l < 3 →
        (!((buildMeas ds fid p l).pressure.isNone &&
           (buildMeas ds fid p l).temperature.isNone &&
           (buildMeas ds fid p l).salinity.isNone)) = true := by
      intro p l hp hl
      obtain ⟨q, hq⟩ := hget p l hp hl
      rw [show (buildMeas ds fid p l).pressure = some (.flt (.fin q)) from hq]
      simp
    simp only [dropna_all, List.filter,
      hdrop 0 0 (by norm_num) (by norm_num), hdrop 0 1 (by norm_num) (by norm_num),
      hdrop 0 2 (by norm_num) (by norm_num), hdrop 1 0 (by norm_num) (by norm_num),
      hdrop 1 1 (by norm_num) (by norm_num), hdrop 1 2 (by norm_num) (by norm_num)]
  · unfold extract_measurements
    rw [show ds2.sizesGet "N_LEVELS" 0 = 0 from by simp [Dataset.sizesGet, h3],
      measIndexPairs_zero]
    rfl

/-- C4 counterexample: this dataset has `N_PROF = 2`, `N_LEVELS = 3`, and
a present, finite, non-sentinel pressure (10.0) at every pair, yet
`extract_profiles` raises out of the NaN guard (its `JULD` is a character
array, decoded to a string by `_get_value`) instead of returning 2 rows. -/
theorem extract_counts_cex :
    dsC4cex.sizes.lookup "N_PROF" = some 2 ∧
    dsC4cex.sizes.lookup "N_LEVELS" = some 3 ∧
    get_value dsC4cex "PRES" (.two 0 0) = some (.flt (.fin 10)) ∧
    get_value dsC4cex "PRES" (.two 0 1) = some (.flt (.fin 10)) ∧
    get_value dsC4cex "PRES" (.two 0 2) = some (.flt (.fin 10)) ∧
    get_value dsC4cex "PRES" (.two 1 0) = some (.flt (.fin 10)) ∧
    get_value dsC4cex "PRES" (.two 1 1) = some (.flt (.fin 10)) ∧
    get_value dsC4cex "PRES" (.two 1 2) = some (.flt (.fin 10)) ∧
    extract_profiles dsC4cex "f" "c" = .error () := by
  refine ⟨rfl, rfl, ?_, ?_, ?_, ?_, ?_, ?_, ?_⟩ <;> rfl

/-- C4 witness: the valid fixture (and the fixture lacking `N_LEVELS`)
instantiate the amended claim. -/
theorem extract_counts_witness :
    (∃ p0 p1 : Profile, extract_profiles dsValid "f" "c" = .ok [p0, p1]) ∧
    (∃ rows : List Measurement,
      extract_measurements dsValid "f" = .ok rows ∧ rows.length = 6) ∧
    extract_measurements dsNoLevels "g" = .ok [] :=
  extract_counts dsValid dsNoLevels "f" "c" "g" (Var.const (.flt (.fin 10)))
    rfl rfl rfl
    (fun _ _ _ _ => ⟨10, rfl, by norm_num⟩)
    (fun _ _ _ h => PyVal.noConfusion (Option.some.inj h))
    rfl

/-- C10 (amended): for a dataset lacking an `N_PROF` dimension — whose
time field yields no string value at index 0 (a string juld raises in the
NaN guard, see the counterexample) — `extract_profiles` returns exactly
one Profile row, indexed 0, carrying the supplied unit id and center;
when the cycle/platform/latitude/longitude/time variables are also absent
that row is all-null; and on the fully empty dataset `stream_to_sql`
still appends that one all-null row. -/
theorem extract_profiles_default_nprof (ds : Dataset) (fid dc : String)
    (h1 : ds.sizes.lookup "N_PROF" = none)
    (hjuld : ∀ s : String, get_value ds "JULD" (.one 0) ≠ some (.str s)) :
    (∃ p : Profile, extract_profiles ds fid dc = .ok [p] ∧
      p.profile_id = 0 ∧ p.float_id = fid ∧ p.data_center = dc) ∧
    (ds.vars.lookup "CYCLE_NUMBER" = none → ds.vars.lookup "PLATFORM_NUMBER" = none →
      ds.vars.lookup "LATITUDE" = none → ds.vars.lookup "LONGITUDE" = none →
      ds.vars.lookup "JULD" = none →
      extract_profiles ds fid dc = .ok [nullProfileRow fid dc]) ∧
    stream_to_sql dsEmptyD fid dc = .ok [.appendProfiles [nullProfileRow fid dc]] := by
  have hn : ds.sizesGet "N_PROF" 1 = 1 := by simp [Dataset.sizesGet, h1]
  refine ⟨?_, ?_, ?_⟩
  · obtain ⟨p, hp⟩ := @buildProfile_ok_of_nonstr ds fid dc 0 hjuld
    refine ⟨p, ?_, buildProfile_profile_id hp, buildProfile_ids hp⟩
    unfold extract_profiles
    rw [hn, show List.range 1 = [0] from rfl]
    simp [profLoop, hp]
  · intro hc hpl hla hlo hj
    have hbase : baseProfile ds fid dc 0 = nullProfileRow fid dc := by
      simp [baseProfile, nullProfileRow, get_value_of_lookup_none _ hc,
        get_value_of_lookup_none _ hpl, get_value_of_lookup_none _ hla,
        get_value_of_lookup_none _ hlo, get_value_of_lookup_none _ hj]
    have hp : buildProfile ds fid dc 0 = .ok (nullProfileRow fid dc) := by
      rw [buildProfile_juld_none (get_value_of_lookup_none _ hj), hbase]
    unfold extract_profiles
    rw [hn, show List.range 1 = [0] from rfl]
    simp [profLoop, hp]
  · rfl

/-- C10 counterexample: this dataset lacks `N_PROF`, but its `JULD` is a
unicode scalar, so `extract_profiles` raises in the NaN guard instead of
returning one row. -/
theorem extract_profiles_default_nprof_cex :
    dsC10cex.sizes.lookup "N_PROF" = none ∧
    extract_profiles dsC10cex "f" "c" = .error () :=
  ⟨rfl, rfl⟩

/-- C10 witness: the empty dataset yields the single all-null row. -/
theorem extract_profiles_default_nprof_witness :
    extract_profiles dsEmptyD "f" "c" = .ok [nullProfileRow "f" "c"] :=
  (extract_profiles_default_nprof dsEmptyD "f" "c" rfl
    (fun _ h => Option.noConfusion h)).2.1 rfl rfl rfl rfl rfl

/-- Draining `K` data messages followed by the sentinel produces exactly
one write invocation per message, in arrival order, and counts exactly
the successful writes. -/
theorem db_writer_spec (writeOk : String → Bool) (fetched : List String) :
    db_writer writeOk (fetched.map Msg.data ++ [Msg.done]) =
      (fetched.map RunAction.writeUnit, (fetched.filter writeOk).length) := by
  induction fetched with
  | nil => rfl
  | cons f rest ih =>
    simp only [List.map_cons, List.cons_append, db_writer, List.filter_cons]
    cases hf : writeOk f <;> simp [ih, Nat.add_comm]

/-- C8: in every run of the orchestrator, `buildIndexes` occurs at most
once; only after the drain completes, with no write after it; exactly
when at least one unit succeeded; and every run over a non-empty unit
list — including one with zero successes — completes (the run function is
total) and ends by reporting succeeded over attempted counts. -/
theorem stream_run_index_report (floats fetched : List String) (writeOk : String → Bool) :
    ((stream_multiple_floats floats fetched writeOk).countP
      (fun a => decide (a = RunAction.buildIndexes)) ≤ 1) ∧
    (RunAction.buildIndexes ∈ stream_multiple_floats floats fetched writeOk →
      ∃ pre post, stream_multiple_floats floats fetched writeOk =
        pre ++ RunAction.drainDone :: post ∧
        RunAction.buildIndexes ∉ pre ∧ ∀ f, RunAction.writeUnit f ∉ post) ∧
    (floats ≠ [] →
      (RunAction.buildIndexes ∈ stream_multiple_floats floats fetched writeOk ↔
        0 < (fetched.filter writeOk).length)) ∧
    (floats ≠ [] →
      (stream_multiple_floats floats fetched writeOk).getLast? =
        some (.report (fetched.filter writeOk).length floats.length)) := by
  by_cases hf : floats.isEmpty
  · have he : floats = [] := List.isEmpty_iff.mp hf
    unfold stream_multiple_floats
    rw [if_pos hf]
    refine ⟨by simp [List.countP, List.countP.go], ?_, fun h => absurd he h,
      fun h => absurd he h⟩
    intro hmem
    simp at hmem
  · have hrun : stream_multiple_floats floats fetched writeOk =
        fetched.map RunAction.writeUnit ++ [RunAction.drainDone] ++
        (if 0 < (fetched.filter writeOk).length then [RunAction.buildIndexes] else []) ++
        [RunAction.report (fetched.filter writeOk).length floats.length] := by
      unfold stream_multiple_floats
      rw [if_neg hf, db_writer_spec]
    have hwrites : ∀ a ∈ fetched.map RunAction.writeUnit,
        decide (a = RunAction.buildIndexes) = false := by
      intro a ha
      obtain ⟨g, -, hg⟩ := List.mem_map.mp ha
      subst hg
      simp
    refine ⟨?_, ?_, ?_, ?_⟩
    · rw [hrun]
      simp only [List.countP_append]
      have h0 : (fetched.map RunAction.writeUnit).countP
          (fun a => decide (a = RunAction.buildIndexes)) = 0 :=
        List.countP_eq_zero.mpr (fun a ha => by simp [hwrites a ha])
      rw [h0]
      by_cases hpos : 0 < (fetched.filter writeOk).length <;>
        simp [hpos, List.countP, List.countP.go]
    · intro hmem
      refine ⟨fetched.map RunAction.writeUnit,
        (if 0 < (fetched.filter writeOk).length then [RunAction.buildIndexes] else []) ++
        [RunAction.report (fetched.filter writeOk).length floats.length], ?_, ?_, ?_⟩
      · rw [hrun]; simp
      · intro hin
        have := hwrites _ hin
        simp at this
      · intro g hin
        rcases List.mem_append.mp hin with h1 | h1
        · by_cases hpos : 0 < (fetched.filter writeOk).length <;> simp [hpos] at h1
        · simp at h1
    · intro _
      rw [hrun]
      by_cases hpos : 0 < (fetched.filter writeOk).length
      · simp [hpos, List.mem_append]
      · simp only [if_neg hpos]
        constructor
        · intro hmem
          rcases List.mem_append.mp hmem with h1 | h1
          · rcases List.mem_append.mp h1 with h2 | h2
            · rcases List.mem_append.mp h2 with h3 | h3
              · have := hwrites _ h3; simp at this
              · simp at h3
            · simp at h2
          · simp at h1
        · intro h; exact absurd h hpos
    · intro _
      rw [hrun, show fetched.map RunAction.writeUnit ++ [RunAction.drainDone] ++
          (if 0 < (fetched.filter writeOk).length then [RunAction.buildIndexes] else []) ++
          [RunAction.report (fetched.filter writeOk).length floats.length] =
          (fetched.map RunAction.writeUnit ++ [RunAction.drainDone] ++
          (if 0 < (fetched.filter writeOk).length then [RunAction.buildIndexes] else [])) ++
          [RunAction.report (fetched.filter writeOk).length floats.length] from by
        simp [List.append_assoc]]
      exact List.getLast?_concat _

/-- C8 witness: three attempted units, two fetched, one write failing —
indexes are built once and the run reports 1 of 3. -/
theorem stream_run_index_report_witness :
    (stream_multiple_floats ["a", "b", "c"] ["a", "c"]
      (fun f => f ≠ "c")).getLast? = some (.report 1 3) := by
  have h := (stream_run_index_report ["a", "b", "c"] ["a", "c"]
    (fun f => f ≠ "c")).2.2.2 (by simp)
  simpa using h

end FloatChat
